import Mathlib

/-!
Verification of the TOXIC-SCAN-BOT moderation pipeline (src/tele2.py).

The repository is a Telegram moderation bot: each incoming text or voice
message is classified for toxicity, toxic messages are deleted and
explained, and per-user offense records (toxic_count, blocked_until) in a
`toxic_users` table drive a warn-at-8 / block-at-10 escalation policy.

Shallow embedding choices:
- time is an integer number of seconds (`Time := Int`); `timedelta(days=2)`
  becomes `twoDays = 2 * 24 * 60 * 60` seconds;
- the black-box LSTM classifier (`detect_toxicity`) is a parameter
  `classify : String -> Bool` (spec section 4.1 treats it as a black box);
- speech-to-text is a parameter `transcription : String`, empty string on
  failure, exactly the contract of `speech_to_text`;
- platform side effects (message deletion, replies) are recorded in a
  `HandlerResult` value: `deleted` is whether delete_message was requested,
  `replies` is the ordered list of reply messages sent (as symbolic
  constructors carrying the data interpolated into the message text),
  `classified` is whether `detect_toxicity` was invoked, and `upsert` is the
  row passed to `update_user_record` (none when the handler returns before
  persisting);
- database read/write failures, which the Python code catches and logs, are
  modelled by explicit `readOk` / `writeOk` booleans in the store layer.
-/

abbrev Time := Int

/-- The per-user row read by `get_user_record`:
SELECT toxic_count, blocked_until FROM toxic_users WHERE user_id = ... -/
structure UserRecord where
  toxic_count : Nat
  blocked_until : Option Time
deriving Repr, DecidableEq

/-- The row written by `update_user_record` (user_id is the key and is kept
implicit; username, toxic_count, blocked_until are the written columns). -/
structure UpsertRow where
  username : String
  toxic_count : Nat
  blocked_until : Option Time
deriving Repr, DecidableEq

/-- The replies a handler can send, one constructor per reply_text call in
handle_text / handle_voice, carrying the data interpolated into the text. -/
inductive Reply where
  | blockedUntil (t : Time)        -- You're blocked until t
  | toxicRemoved (explanation : String)      -- Toxic message removed
  | voiceToxicRemoved (explanation : String) -- Toxic voice message removed
  | warning (username : String)    -- Warning @username: 8 toxic messages
  | blockNotice (t : Time)         -- You are blocked for 2 days until t
  | notToxic                       -- Not Toxic
  | voiceNotToxic (transcription : String)   -- transcription + Not Toxic
  | couldNotUnderstand             -- Could not understand your voice message
deriving Repr, DecidableEq

/-- The observable outcome of one handler invocation. -/
structure HandlerResult where
  deleted : Bool
  replies : List Reply
  classified : Bool
  upsert : Option UpsertRow
deriving Repr, DecidableEq

/-- timedelta(days=2) in seconds. -/
def twoDays : Time := 2 * 24 * 60 * 60

-- ---------- explain_toxicity ----------

/-- TOXIC_KEYWORDS = the fixed keyword set of the simple explainability
heuristic. -/
def TOXIC_KEYWORDS : List String := ["hate", "stupid", "idiot", "dumb", "kill", "trash", "ugly"]

/-- Python whitespace for str.split with no arguments (ASCII range):
space, tab, newline, carriage return, vertical tab, form feed. -/
def pyIsSpace (c : Char) : Bool :=
  c = ' ' || c = '\t' || c = '\n' || c = '\r' || c.toNat = 11 || c.toNat = 12

/-- Accumulator pass over the character list implementing Python
str.split(): whitespace runs separate words, empty pieces are dropped.
`acc` holds the characters of the current word in reverse. -/
def pySplitAux : List Char → List Char → List String
  | [], acc => if acc.isEmpty then [] else [String.mk acc.reverse]
  | c :: cs, acc =>
      if pyIsSpace c then
        if acc.isEmpty then pySplitAux cs [] else String.mk acc.reverse :: pySplitAux cs []
      else pySplitAux cs (c :: acc)

/-- text.split() of Python: split on runs of whitespace, no empty tokens. -/
def pySplit (s : String) : List String := pySplitAux s.data []

/-- w.lower() of Python, restricted to ASCII case mapping (sufficient for
comparison against the all-ASCII keyword set). -/
def pyLower (s : String) : String := String.mk (s.data.map Char.toLower)

/-- Python str.join with a single-space separator. -/
def joinSpace : List String → String
  | [] => ""
  | [w] => w
  | w :: ws => w ++ " " ++ joinSpace ws

/-- explain_toxicity from src/tele2.py: split on whitespace, bold each word
whose lowercase form is in TOXIC_KEYWORDS (the for-loop appending to
`highlighted` is the foldl), and join with single spaces. -/
def explain_toxicity (text : String) : String :=
  let words := pySplit text
  let highlighted := words.foldl
    (fun acc w => acc ++ [if TOXIC_KEYWORDS.contains (pyLower w) then "**" ++ w ++ "**" else w])
    []
  joinSpace highlighted

/-- The explanation algorithm as the spec states it (section 4.4): split
text on whitespace; for each token, if its case-insensitive form is in the
fixed toxic-keyword set, wrap it in emphasis markers; rejoin with single
spaces. Written with List.map to compare against the loop in the source. -/
def explainSpec (text : String) : String :=
  joinSpace ((pySplit text).map
    (fun w => if TOXIC_KEYWORDS.contains (pyLower w) then "**" ++ w ++ "**" else w))

example : explain_toxicity "you are stupid and ugly" = "you are **stupid** and **ugly**" := by decide
example : explain_toxicity "ugly!" = "ugly!" := by decide
example : explain_toxicity "  hello   world  " = "hello world" := by decide
example : explain_toxicity "UGLY" = "**UGLY**" := by decide

-- ---------- handlers ----------

/-- The toxic_count the handler works with: 0 when there is no record,
the stored count otherwise (lines 160-164 of handle_text). -/
def recCount : Option UserRecord → Nat
  | some r => r.toxic_count
  | none => 0

/-- The blocked_until the handler works with: None when there is no record,
the stored value otherwise (lines 161-164 of handle_text). -/
def recBlocked : Option UserRecord → Option Time
  | some r => r.blocked_until
  | none => none

/-- The block-window test of both handlers: blocked_until is present
(a datetime is always truthy in Python when not None) and now < blocked_until. -/
def isBlocked (record : Option UserRecord) (now : Time) : Bool :=
  match recBlocked record with
  | some t => decide (now < t)
  | none => false

/-- The rejection outcome for a currently blocked user: delete the
original message, reply with the block expiry, return before classifying
or upserting (lines 165-171 / 209-215). -/
def rejectBlocked (t : Time) : HandlerResult :=
  { deleted := true, replies := [Reply.blockedUntil t], classified := false, upsert := none }

/-- handle_text after the block check (lines 173-194): classify, on toxic
increment the count, delete and explain, then warn at exactly 8 or block
at greater-or-equal 10; on non-toxic reply Not Toxic; upsert in all cases. -/
def textAfterBlockCheck (classify : String → Bool) (toxic_count : Nat)
    (blocked_until : Option Time) (username : String) (now : Time) (text : String) :
    HandlerResult :=
  if classify text then
    let tc := toxic_count + 1
    let explanation := explain_toxicity text
    if tc = 8 then
      { deleted := true, replies := [Reply.toxicRemoved explanation, Reply.warning username],
        classified := true, upsert := some ⟨username, tc, blocked_until⟩ }
    else if 10 ≤ tc then
      let b := now + twoDays
      { deleted := true, replies := [Reply.toxicRemoved explanation, Reply.blockNotice b],
        classified := true, upsert := some ⟨username, tc, some b⟩ }
    else
      { deleted := true, replies := [Reply.toxicRemoved explanation],
        classified := true, upsert := some ⟨username, tc, blocked_until⟩ }
  else
    { deleted := false, replies := [Reply.notToxic], classified := true,
      upsert := some ⟨username, toxic_count, blocked_until⟩ }

/-- handle_text from src/tele2.py, lines 151-194, as a function of the
record returned by get_user_record, the classifier, and the clock. -/
def handle_text (classify : String → Bool) (record : Option UserRecord)
    (username : String) (now : Time) (text : String) : HandlerResult :=
  match recBlocked record with
  | some t =>
      if now < t then rejectBlocked t
      else textAfterBlockCheck classify (recCount record) (some t) username now text
  | none => textAfterBlockCheck classify (recCount record) none username now text

/-- handle_voice after the block check (lines 217-251): transcribe, delete
the original message unconditionally, stop with a could-not-understand
reply on empty transcription (no upsert), otherwise classify the
transcription with the same warn/block escalation as text. -/
def voiceAfterBlockCheck (classify : String → Bool) (toxic_count : Nat)
    (blocked_until : Option Time) (username : String) (now : Time)
    (transcription : String) : HandlerResult :=
  if transcription = "" then
    { deleted := true, replies := [Reply.couldNotUnderstand], classified := false, upsert := none }
  else if classify transcription then
    let tc := toxic_count + 1
    let explanation := explain_toxicity transcription
    if tc = 8 then
      { deleted := true, replies := [Reply.voiceToxicRemoved explanation, Reply.warning username],
        classified := true, upsert := some ⟨username, tc, blocked_until⟩ }
    else if 10 ≤ tc then
      let b := now + twoDays
      { deleted := true, replies := [Reply.voiceToxicRemoved explanation, Reply.blockNotice b],
        classified := true, upsert := some ⟨username, tc, some b⟩ }
    else
      { deleted := true, replies := [Reply.voiceToxicRemoved explanation],
        classified := true, upsert := some ⟨username, tc, blocked_until⟩ }
  else
    { deleted := true, replies := [Reply.voiceNotToxic transcription], classified := true,
      upsert := some ⟨username, toxic_count, blocked_until⟩ }

/-- handle_voice from src/tele2.py, lines 196-251, as a function of the
record, the classifier, the clock and the transcription result. -/
def handle_voice (classify : String → Bool) (record : Option UserRecord)
    (username : String) (now : Time) (transcription : String) : HandlerResult :=
  match recBlocked record with
  | some t =>
      if now < t then rejectBlocked t
      else voiceAfterBlockCheck classify (recCount record) (some t) username now transcription
  | none => voiceAfterBlockCheck classify (recCount record) none username now transcription

-- ---------- store layer ----------

/-- get_user_record, lines 76-83: the stored row on success; on any
database error the exception is caught, logged, and None is returned. -/
def get_user_record (stored : Option UserRecord) (readOk : Bool) : Option UserRecord :=
  if readOk then stored else none

/-- update_user_record, lines 85-98: upsert overwriting toxic_count and
blocked_until on success; on failure the error is logged and swallowed,
leaving the stored row unchanged. -/
def update_user_record (stored : Option UserRecord) (writeOk : Bool) (u : UpsertRow) :
    Option UserRecord :=
  if writeOk then some ⟨u.toxic_count, u.blocked_until⟩ else stored

/-- One full text-message round trip: read the record (possibly failing
open), run handle_text, apply its upsert (possibly failing silently).
Returns the observable handler outcome and the new stored row. -/
def processText (stored : Option UserRecord) (readOk writeOk : Bool)
    (classify : String → Bool) (username : String) (now : Time) (text : String) :
    HandlerResult × Option UserRecord :=
  let res := handle_text classify (get_user_record stored readOk) username now text
  match res.upsert with
  | none => (res, stored)
  | some u => (res, update_user_record stored writeOk u)

/-- One incoming text message in a trace: its database read/write outcomes,
sender name, arrival time and text. -/
structure MsgEvent where
  readOk : Bool
  writeOk : Bool
  username : String
  now : Time
  text : String

/-- Fold a sequence of incoming text messages over the stored row. -/
def runText (classify : String → Bool) : List MsgEvent → Option UserRecord → Option UserRecord
  | [], stored => stored
  | e :: es, stored =>
      runText classify es (processText stored e.readOk e.writeOk classify e.username e.now e.text).2

/-- The blocked_until column of the stored row, none when no row exists. -/
def storedBlockedUntil (stored : Option UserRecord) : Option Time :=
  match stored with
  | some r => r.blocked_until
  | none => none

example :
    handle_text (fun _ => true) (some ⟨9, none⟩) "u" 0 "x" =
      { deleted := true,
        replies := [Reply.toxicRemoved "x", Reply.blockNotice 172800],
        classified := true, upsert := some ⟨"u", 10, some 172800⟩ } := by decide
example :
    handle_text (fun _ => false) (some ⟨3, some 50⟩) "u" 100 "x" =
      { deleted := false, replies := [Reply.notToxic],
        classified := true, upsert := some ⟨"u", 3, some 50⟩ } := by decide
example :
    handle_voice (fun _ => true) (some ⟨2, some 50⟩) "u" 10 "x" = rejectBlocked 50 := by decide
example :
    handle_voice (fun _ => true) none "u" 10 "" =
      { deleted := true, replies := [Reply.couldNotUnderstand],
        classified := false, upsert := none } := by decide

/-- Which replies are a primary reply in the spec's taxonomy
(allow / toxic-removed / blocked / could-not-understand), as opposed to the
appended escalation replies (warning, block notice). -/
def Reply.isPrimary : Reply → Bool
  | .warning _ => false
  | .blockNotice _ => false
  | _ => true

/-- Recognizes the warning reply. -/
def Reply.isWarning : Reply → Bool
  | .warning _ => true
  | _ => false

-- ---------- helper lemmas ----------

/-- The append-accumulating fold of the Python for loop equals List.map. -/
theorem foldl_append_eq_map (f : String → String) (l0 ws : List String) :
    ws.foldl (fun acc w => acc ++ [f w]) l0 = l0 ++ ws.map f := by
  induction ws generalizing l0 with
  | nil => simp
  | cons w ws ih => simp [List.foldl, ih]

/-- explain_toxicity computes the map the spec describes. -/
theorem explain_toxicity_eq_explainSpec (text : String) :
    explain_toxicity text = explainSpec text := by
  unfold explain_toxicity explainSpec
  simp [foldl_append_eq_map]

/-- A non-blocked record (no block window covering now) falls through the
block check of handle_text. -/
theorem handle_text_not_blocked (classify : String → Bool) (record : Option UserRecord)
    (username : String) (now : Time) (text : String)
    (hb : isBlocked record now = false) :
    handle_text classify record username now text =
      textAfterBlockCheck classify (recCount record) (recBlocked record) username now text := by
  unfold handle_text isBlocked at *
  cases h : recBlocked record with
  | none => simp [h]
  | some t =>
      rw [h] at hb
      simp only [decide_eq_false_iff_not] at hb
      simp [h, hb]

/-- A non-blocked record falls through the block check of handle_voice. -/
theorem handle_voice_not_blocked (classify : String → Bool) (record : Option UserRecord)
    (username : String) (now : Time) (transcription : String)
    (hb : isBlocked record now = false) :
    handle_voice classify record username now transcription =
      voiceAfterBlockCheck classify (recCount record) (recBlocked record) username now
        transcription := by
  unfold handle_voice isBlocked at *
  cases h : recBlocked record with
  | none => simp [h]
  | some t =>
      rw [h] at hb
      simp only [decide_eq_false_iff_not] at hb
      simp [h, hb]

-- ---------- C7 ----------

/-- Claim C7: for every input text, explain_toxicity splits the text on
whitespace, wraps a token in emphasis markers iff its lowercased form is
exactly a member of TOXIC_KEYWORDS (tokens with attached punctuation do not
match), and rejoins the tokens with single spaces; in particular
explain("you are stupid and ugly") = "you are **stupid** and **ugly**". -/
theorem explain_toxicity_keyword_highlighting :
    (∀ text, explain_toxicity text = explainSpec text) ∧
    explain_toxicity "you are stupid and ugly" = "you are **stupid** and **ugly**" ∧
    explain_toxicity "ugly!" = "ugly!" ∧
    explain_toxicity "STUPID" = "**STUPID**" ∧
    TOXIC_KEYWORDS = ["hate", "stupid", "idiot", "dumb", "kill", "trash", "ugly"] :=
  ⟨explain_toxicity_eq_explainSpec, by decide, by decide, by decide, rfl⟩

-- ---------- C10 ----------

/-- Claim C10: on text with no toxic keywords, explain_toxicity returns the
whitespace-separated words rejoined by single spaces rather than the text
itself: whitespace runs collapse, leading and trailing whitespace drops, so
the quoted explanation can differ from the original message even when
nothing is highlighted. -/
theorem explain_toxicity_collapses_whitespace :
    (∀ text, (∀ w ∈ pySplit text, TOXIC_KEYWORDS.contains (pyLower w) = false) →
       explain_toxicity text = joinSpace (pySplit text)) ∧
    explain_toxicity "  hello   world  " = "hello world" ∧
    "hello world" ≠ "  hello   world  " := by
  refine ⟨?_, by decide, by decide⟩
  intro text h
  rw [explain_toxicity_eq_explainSpec, explainSpec]
  congr 1
  calc (pySplit text).map _ = (pySplit text).map id := by
        apply List.map_congr_left
        intro w hw
        have hc := h w hw
        simp at hc
        simp [hc]
    _ = pySplit text := List.map_id _

/-- Witness for C10 at a concrete keyword-free input. -/
theorem explain_toxicity_collapses_whitespace_witness :
    explain_toxicity "  hello   world  " = joinSpace (pySplit "  hello   world  ") :=
  explain_toxicity_collapses_whitespace.1 "  hello   world  " (by decide)

-- ---------- C5 ----------

/-- Claim C5: when get_user_record fails, an absent record is returned and
the message is processed exactly as for a user with no record (toxic_count
0, no blocked_until); the read failure never aborts processing. -/
theorem read_failure_fail_open :
    ∀ (stored : Option UserRecord) (writeOk : Bool) (classify : String → Bool)
      (username : String) (now : Time) (text : String),
      get_user_record stored false = none ∧
      (processText stored false writeOk classify username now text).1 =
        handle_text classify none username now text := by
  intro stored writeOk classify username now text
  refine ⟨rfl, ?_⟩
  unfold processText
  cases h : (handle_text classify none username now text).upsert <;>
    simp [h, get_user_record]

-- ---------- C2 ----------

/-- The warning reply appears after the block check iff the message is
toxic and the incremented count is exactly 8. -/
theorem warning_mem_textAfterBlockCheck (classify : String → Bool) (tc : Nat)
    (bu : Option Time) (username : String) (now : Time) (text : String) :
    Reply.warning username ∈ (textAfterBlockCheck classify tc bu username now text).replies ↔
      (classify text = true ∧ tc + 1 = 8) := by
  unfold textAfterBlockCheck
  by_cases hc : classify text = true
  · simp only [hc, if_true]
    by_cases h8 : tc + 1 = 8
    · simp [h8]
    · by_cases h10 : 10 ≤ tc + 1 <;> simp [h8, h10]
  · simp [hc]

/-- Voice version of the warning-membership characterization. -/
theorem warning_mem_voiceAfterBlockCheck (classify : String → Bool) (tc : Nat)
    (bu : Option Time) (username : String) (now : Time) (transcription : String) :
    Reply.warning username ∈
        (voiceAfterBlockCheck classify tc bu username now transcription).replies ↔
      (transcription ≠ "" ∧ classify transcription = true ∧ tc + 1 = 8) := by
  unfold voiceAfterBlockCheck
  by_cases he : transcription = ""
  · simp [he]
  · rw [if_neg he]
    by_cases hc : classify transcription = true
    · simp only [hc, if_true]
      by_cases h8 : tc + 1 = 8
      · simp [h8, he]
      · by_cases h10 : 10 ≤ tc + 1 <;> simp [h8, h10]
    · simp [hc, he]

/-- A blocked record short-circuits handle_text to the rejection outcome. -/
theorem handle_text_blocked (classify : String → Bool) (record : Option UserRecord)
    (username : String) (now : Time) (text : String)
    (hb : isBlocked record now = true) :
    ∃ t, recBlocked record = some t ∧ now < t ∧
      handle_text classify record username now text = rejectBlocked t := by
  unfold isBlocked at hb
  cases h : recBlocked record with
  | none => rw [h] at hb; simp at hb
  | some t =>
      rw [h] at hb
      simp only [decide_eq_true_eq] at hb
      exact ⟨t, rfl, hb, by unfold handle_text; rw [h]; simp [hb]⟩

/-- A blocked record short-circuits handle_voice to the rejection outcome. -/
theorem handle_voice_blocked (classify : String → Bool) (record : Option UserRecord)
    (username : String) (now : Time) (transcription : String)
    (hb : isBlocked record now = true) :
    ∃ t, recBlocked record = some t ∧ now < t ∧
      handle_voice classify record username now transcription = rejectBlocked t := by
  unfold isBlocked at hb
  cases h : recBlocked record with
  | none => rw [h] at hb; simp at hb
  | some t =>
      rw [h] at hb
      simp only [decide_eq_true_eq] at hb
      exact ⟨t, rfl, hb, by unfold handle_voice; rw [h]; simp [hb]⟩

/-- Claim C2: the warning reply is sent iff the toxic_count after the
increment equals 8 exactly (the code tests equality, not greater-or-equal,
so no warning at 9 or any later count), for both text and voice. -/
theorem warn_iff_eighth_offense :
    ∀ (classify : String → Bool) (record : Option UserRecord) (username : String)
      (now : Time) (text transcription : String),
      (Reply.warning username ∈ (handle_text classify record username now text).replies ↔
        isBlocked record now = false ∧ classify text = true ∧ recCount record + 1 = 8) ∧
      (Reply.warning username ∈
          (handle_voice classify record username now transcription).replies ↔
        isBlocked record now = false ∧ transcription ≠ "" ∧ classify transcription = true ∧
          recCount record + 1 = 8) := by
  intro classify record username now text transcription
  cases hb : isBlocked record now with
  | false =>
      rw [handle_text_not_blocked _ _ _ _ _ hb, handle_voice_not_blocked _ _ _ _ _ hb]
      simp [warning_mem_textAfterBlockCheck, warning_mem_voiceAfterBlockCheck]
  | true =>
      obtain ⟨t, _, _, h1⟩ := handle_text_blocked classify record username now text hb
      obtain ⟨t2, _, _, h2⟩ := handle_voice_blocked classify record username now transcription hb
      rw [h1, h2]
      simp [rejectBlocked, hb]

-- ---------- C3 ----------

/-- Claim C3: a message from a user whose record has blocked_until in the
future is deleted and answered with the block expiry; nothing is
classified, no count is incremented, nothing is upserted, and the stored
row is unchanged. -/
theorem blocked_message_rejected_unchanged (classify : String → Bool) (c : Nat) (t : Time)
    (username : String) (now : Time) (text transcription : String) (writeOk : Bool)
    (h : now < t) :
    handle_text classify (some ⟨c, some t⟩) username now text =
      { deleted := true, replies := [Reply.blockedUntil t], classified := false,
        upsert := none } ∧
    handle_voice classify (some ⟨c, some t⟩) username now transcription =
      { deleted := true, replies := [Reply.blockedUntil t], classified := false,
        upsert := none } ∧
    (processText (some ⟨c, some t⟩) true writeOk classify username now text).2 =
      some ⟨c, some t⟩ := by
  have h1 : handle_text classify (some ⟨c, some t⟩) username now text = rejectBlocked t := by
    unfold handle_text
    simp [recBlocked, h]
  have h2 : handle_voice classify (some ⟨c, some t⟩) username now transcription =
      rejectBlocked t := by
    unfold handle_voice
    simp [recBlocked, h]
  refine ⟨by rw [h1]; rfl, by rw [h2]; rfl, ?_⟩
  unfold processText
  simp [get_user_record, h1, rejectBlocked]

/-- Witness for C3 at a concrete blocked record. -/
theorem blocked_message_rejected_unchanged_witness :
    handle_text (fun _ => true) (some ⟨3, some 100⟩) "u" 50 "x" =
      { deleted := true, replies := [Reply.blockedUntil 100], classified := false,
        upsert := none } ∧
    (processText (some ⟨3, some 100⟩) true true (fun _ => true) "u" 50 "x").2 =
      some ⟨3, some 100⟩ :=
  ⟨(blocked_message_rejected_unchanged (fun _ => true) 3 100 "u" 50 "x" "y" true
      (by decide)).1,
   (blocked_message_rejected_unchanged (fun _ => true) 3 100 "u" 50 "x" "y" true
      (by decide)).2.2⟩

-- ---------- C1 ----------

/-- On the toxic path after the block check: incremented count at least 10
blocks for exactly two days and announces that expiry; incremented count
below 10 and different from 8 leaves blocked_until at its prior value and
sends no block notice. -/
theorem textAfterBlockCheck_block_policy (classify : String → Bool) (tc : Nat)
    (bu : Option Time) (username : String) (now : Time) (text : String)
    (hc : classify text = true) :
    (10 ≤ tc + 1 →
      (textAfterBlockCheck classify tc bu username now text).upsert =
        some ⟨username, tc + 1, some (now + twoDays)⟩ ∧
      Reply.blockNotice (now + twoDays) ∈
        (textAfterBlockCheck classify tc bu username now text).replies) ∧
    (tc + 1 < 10 → tc + 1 ≠ 8 →
      (textAfterBlockCheck classify tc bu username now text).upsert =
        some ⟨username, tc + 1, bu⟩ ∧
      ∀ b, Reply.blockNotice b ∉
        (textAfterBlockCheck classify tc bu username now text).replies) := by
  unfold textAfterBlockCheck
  rw [if_pos hc]
  constructor
  · intro h10
    have h8 : ¬(tc + 1 = 8) := by omega
    simp [h8, h10]
  · intro h10 h8
    have h10n : ¬(10 ≤ tc + 1) := by omega
    simp [h8, h10n]

/-- Voice version of the block policy on the toxic path. -/
theorem voiceAfterBlockCheck_block_policy (classify : String → Bool) (tc : Nat)
    (bu : Option Time) (username : String) (now : Time) (transcription : String)
    (he : transcription ≠ "") (hc : classify transcription = true) :
    (10 ≤ tc + 1 →
      (voiceAfterBlockCheck classify tc bu username now transcription).upsert =
        some ⟨username, tc + 1, some (now + twoDays)⟩ ∧
      Reply.blockNotice (now + twoDays) ∈
        (voiceAfterBlockCheck classify tc bu username now transcription).replies) ∧
    (tc + 1 < 10 → tc + 1 ≠ 8 →
      (voiceAfterBlockCheck classify tc bu username now transcription).upsert =
        some ⟨username, tc + 1, bu⟩ ∧
      ∀ b, Reply.blockNotice b ∉
        (voiceAfterBlockCheck classify tc bu username now transcription).replies) := by
  unfold voiceAfterBlockCheck
  rw [if_neg he, if_pos hc]
  constructor
  · intro h10
    have h8 : ¬(tc + 1 = 8) := by omega
    simp [h8, h10]
  · intro h10 h8
    have h10n : ¬(10 ≤ tc + 1) := by omega
    simp [h8, h10n]

/-- Claim C1: on a toxic classification for a non-blocked user, a new count
of at least 10 sets blocked_until to exactly now plus 2 days and sends a
reply carrying that exact expiry; a new count below 10 (other than exactly
8) sets no block and keeps the prior blocked_until, for both handlers. -/
theorem block_at_ten_exact_expiry (classify : String → Bool) (record : Option UserRecord)
    (username : String) (now : Time) (text transcription : String)
    (hb : isBlocked record now = false) (ht : classify text = true)
    (he : transcription ≠ "") (hv : classify transcription = true) :
    (10 ≤ recCount record + 1 →
      (handle_text classify record username now text).upsert =
        some ⟨username, recCount record + 1, some (now + twoDays)⟩ ∧
      Reply.blockNotice (now + twoDays) ∈
        (handle_text classify record username now text).replies) ∧
    (recCount record + 1 < 10 → recCount record + 1 ≠ 8 →
      (handle_text classify record username now text).upsert =
        some ⟨username, recCount record + 1, recBlocked record⟩ ∧
      ∀ b, Reply.blockNotice b ∉ (handle_text classify record username now text).replies) ∧
    (10 ≤ recCount record + 1 →
      (handle_voice classify record username now transcription).upsert =
        some ⟨username, recCount record + 1, some (now + twoDays)⟩ ∧
      Reply.blockNotice (now + twoDays) ∈
        (handle_voice classify record username now transcription).replies) ∧
    (recCount record + 1 < 10 → recCount record + 1 ≠ 8 →
      (handle_voice classify record username now transcription).upsert =
        some ⟨username, recCount record + 1, recBlocked record⟩ ∧
      ∀ b, Reply.blockNotice b ∉
        (handle_voice classify record username now transcription).replies) := by
  rw [handle_text_not_blocked _ _ _ _ _ hb, handle_voice_not_blocked _ _ _ _ _ hb]
  exact ⟨(textAfterBlockCheck_block_policy classify _ _ username now text ht).1,
    (textAfterBlockCheck_block_policy classify _ _ username now text ht).2,
    (voiceAfterBlockCheck_block_policy classify _ _ username now transcription he hv).1,
    (voiceAfterBlockCheck_block_policy classify _ _ username now transcription he hv).2⟩

/-- Witness for C1: a user at count 9 sending a toxic text is blocked until
now plus 2 days, and at count 3 no block notice is sent. -/
theorem block_at_ten_exact_expiry_witness :
    ((handle_text (fun _ => true) (some ⟨9, none⟩) "u" 0 "x").upsert =
        some ⟨"u", recCount (some ⟨9, none⟩) + 1, some ((0 : Time) + twoDays)⟩ ∧
      Reply.blockNotice ((0 : Time) + twoDays) ∈
        (handle_text (fun _ => true) (some ⟨9, none⟩) "u" 0 "x").replies) ∧
    ((handle_text (fun _ => true) (some ⟨3, some 7⟩) "u" 20 "x").upsert =
        some ⟨"u", recCount (some ⟨3, some 7⟩) + 1, recBlocked (some ⟨3, some 7⟩)⟩ ∧
      ∀ b, Reply.blockNotice b ∉
        (handle_text (fun _ => true) (some ⟨3, some 7⟩) "u" 20 "x").replies) :=
  ⟨(block_at_ten_exact_expiry (fun _ => true) (some ⟨9, none⟩) "u" 0 "x" "y"
      (by decide) rfl (by decide) rfl).1 (by decide),
   (block_at_ten_exact_expiry (fun _ => true) (some ⟨3, some 7⟩) "u" 20 "x" "y"
      (by decide) rfl (by decide) rfl).2.1 (by decide) (by decide)⟩

-- ---------- C9 ----------

/-- Claim C9: a non-blocked voice message is deleted unconditionally once
transcription has been attempted, and an empty transcription yields only
the could-not-understand reply with no classification and no record
update. -/
theorem voice_unconditional_delete_empty_stop (classify : String → Bool)
    (record : Option UserRecord) (username : String) (now : Time) (transcription : String)
    (hb : isBlocked record now = false) :
    (handle_voice classify record username now transcription).deleted = true ∧
    (transcription = "" →
      handle_voice classify record username now transcription =
        { deleted := true, replies := [Reply.couldNotUnderstand], classified := false,
          upsert := none }) := by
  rw [handle_voice_not_blocked _ _ _ _ _ hb]
  unfold voiceAfterBlockCheck
  constructor
  · dsimp only
    split_ifs <;> rfl
  · intro he
    rw [if_pos he]

/-- Witness for C9 at an empty transcription and a non-toxic voice text. -/
theorem voice_unconditional_delete_empty_stop_witness :
    handle_voice (fun _ => false) none "u" 0 "" =
      { deleted := true, replies := [Reply.couldNotUnderstand], classified := false,
        upsert := none } ∧
    (handle_voice (fun _ => false) none "u" 0 "hi").deleted = true :=
  ⟨(voice_unconditional_delete_empty_stop (fun _ => false) none "u" 0 "" (by decide)).2 rfl,
   (voice_unconditional_delete_empty_stop (fun _ => false) none "u" 0 "hi" (by decide)).1⟩

-- ---------- C4 ----------

/-- storedBlockedUntil and recBlocked read the same column. -/
theorem storedBlockedUntil_eq_recBlocked (s : Option UserRecord) :
    storedBlockedUntil s = recBlocked s := by
  cases s <;> rfl

/-- storedBlockedUntil on a present row is its blocked_until column. -/
theorem storedBlockedUntil_some (r : UserRecord) :
    storedBlockedUntil (some r) = r.blocked_until := rfl

/-- recBlocked on a present record is its blocked_until column. -/
theorem recBlocked_some (r : UserRecord) : recBlocked (some r) = r.blocked_until := rfl

/-- The row handle_text hands to update_user_record carries either the
blocked_until it read or a fresh two-day block. -/
theorem handle_text_upsert_cases (classify : String → Bool) (record : Option UserRecord)
    (username : String) (now : Time) (text : String) :
    (handle_text classify record username now text).upsert = none ∨
    (∃ n, (handle_text classify record username now text).upsert =
      some ⟨username, n, recBlocked record⟩) ∨
    (∃ n, (handle_text classify record username now text).upsert =
      some ⟨username, n, some (now + twoDays)⟩) := by
  cases hb : isBlocked record now with
  | true =>
      obtain ⟨t, _, _, h1⟩ := handle_text_blocked classify record username now text hb
      rw [h1]
      exact Or.inl rfl
  | false =>
      rw [handle_text_not_blocked _ _ _ _ _ hb]
      unfold textAfterBlockCheck
      dsimp only
      split_ifs with hc h8 h10
      · exact Or.inr (Or.inl ⟨recCount record + 1, rfl⟩)
      · exact Or.inr (Or.inr ⟨recCount record + 1, rfl⟩)
      · exact Or.inr (Or.inl ⟨recCount record + 1, rfl⟩)
      · exact Or.inr (Or.inl ⟨recCount record, rfl⟩)

/-- One round trip with a successful read either leaves the stored
blocked_until unchanged or replaces it with a fresh two-day block. -/
theorem processText_blocked_step (stored : Option UserRecord) (writeOk : Bool)
    (classify : String → Bool) (username : String) (now : Time) (text : String) :
    storedBlockedUntil (processText stored true writeOk classify username now text).2 =
        storedBlockedUntil stored ∨
    storedBlockedUntil (processText stored true writeOk classify username now text).2 =
        some (now + twoDays) := by
  have hg : get_user_record stored true = stored := rfl
  rcases handle_text_upsert_cases classify stored username now text with h | ⟨n, h⟩ | ⟨n, h⟩ <;>
    · unfold processText
      rw [hg]
      dsimp only
      rw [h]
      cases writeOk <;>
        simp [update_user_record, storedBlockedUntil_some, recBlocked_some,
          storedBlockedUntil_eq_recBlocked]

/-- Over any trace of text messages whose reads all succeed, a stored
blocked_until is never cleared to absent. -/
theorem runText_never_clears (classify : String → Bool) (events : List MsgEvent) :
    ∀ stored, (∀ e ∈ events, e.readOk = true) →
      storedBlockedUntil (runText classify events stored) = none →
      storedBlockedUntil stored = none := by
  induction events with
  | nil => intro stored _ h; exact h
  | cons e es ih =>
      intro stored hall h
      have he : e.readOk = true := hall e (List.mem_cons_self _ _)
      have hes : ∀ x ∈ es, x.readOk = true := fun x hx => hall x (List.mem_cons_of_mem _ hx)
      rw [runText] at h
      have hmid := ih _ hes h
      rw [he] at hmid
      rcases processText_blocked_step stored e.writeOk classify e.username e.now e.text with
        h1 | h1
      · rw [h1] at hmid; exact hmid
      · rw [h1] at hmid; exact absurd hmid (by simp)

/-- Claim C4 (amended): provided every persistence read succeeds, a stored
blocked_until is only ever overwritten by a new block decision or left
unchanged and is never cleared to absent; a failed read, however, makes the
handler treat the user as recordless and a subsequent successful write
clears blocked_until (see the counterexample). -/
theorem blocked_until_never_cleared (classify : String → Bool) (events : List MsgEvent)
    (stored : Option UserRecord) (writeOk : Bool) (username : String) (now : Time)
    (text : String) (hall : ∀ e ∈ events, e.readOk = true) :
    (storedBlockedUntil (runText classify events stored) = none →
      storedBlockedUntil stored = none) ∧
    (storedBlockedUntil (processText stored true writeOk classify username now text).2 =
        storedBlockedUntil stored ∨
     storedBlockedUntil (processText stored true writeOk classify username now text).2 =
        some (now + twoDays)) :=
  ⟨runText_never_clears classify events stored hall,
   processText_blocked_step stored writeOk classify username now text⟩

/-- Witness for C4 on a concrete one-message trace with a successful read. -/
theorem blocked_until_never_cleared_witness :
    (storedBlockedUntil (runText (fun _ => true) [⟨true, true, "u", 0, "x"⟩]
        (some ⟨1, some 99⟩)) = none →
      storedBlockedUntil (some ⟨1, some 99⟩) = none) ∧
    (storedBlockedUntil (processText (some ⟨1, some 99⟩) true true (fun _ => true)
        "u" 0 "x").2 = storedBlockedUntil (some ⟨1, some 99⟩) ∨
     storedBlockedUntil (processText (some ⟨1, some 99⟩) true true (fun _ => true)
        "u" 0 "x").2 = some ((0 : Time) + twoDays)) :=
  blocked_until_never_cleared (fun _ => true) [⟨true, true, "u", 0, "x"⟩]
    (some ⟨1, some 99⟩) true "u" 0 "x" (by decide)

/-- Claim C4 counterexample: a message whose database read fails (the code
catches the error and returns None) and whose write succeeds clears a
stored blocked_until that still lies in the future. -/
theorem read_failure_clears_block :
    storedBlockedUntil (some ⟨5, some 100⟩) = some 100 ∧ (0 : Time) < 100 ∧
    runText (fun _ => false) [⟨false, true, "u", 0, "x"⟩] (some ⟨5, some 100⟩) =
      some ⟨0, none⟩ ∧
    storedBlockedUntil (runText (fun _ => false) [⟨false, true, "u", 0, "x"⟩]
      (some ⟨5, some 100⟩)) = none :=
  ⟨rfl, by decide, rfl, rfl⟩

-- ---------- C6 ----------

/-- Reply shape of handle_text after the block check: one primary reply,
and any appended reply is the warning at an exact new count of 8 or the
block notice at a new count of at least 10. -/
theorem textAfterBlockCheck_reply_shape (classify : String → Bool) (tc : Nat)
    (bu : Option Time) (username : String) (now : Time) (text : String) :
    ((textAfterBlockCheck classify tc bu username now text).replies.filter
      Reply.isPrimary).length = 1 ∧
    ∀ r ∈ (textAfterBlockCheck classify tc bu username now text).replies,
      Reply.isPrimary r = false →
        (r = Reply.warning username ∧ tc + 1 = 8) ∨
        (r = Reply.blockNotice (now + twoDays) ∧ 10 ≤ tc + 1) := by
  unfold textAfterBlockCheck
  dsimp only
  split_ifs with hc h8 h10
  · refine ⟨rfl, ?_⟩
    intro r hr hrp
    simp at hr
    rcases hr with rfl | rfl
    · simp [Reply.isPrimary] at hrp
    · exact Or.inl ⟨rfl, h8⟩
  · refine ⟨rfl, ?_⟩
    intro r hr hrp
    simp at hr
    rcases hr with rfl | rfl
    · simp [Reply.isPrimary] at hrp
    · exact Or.inr ⟨rfl, h10⟩
  · refine ⟨rfl, ?_⟩
    intro r hr hrp
    simp at hr
    subst hr
    simp [Reply.isPrimary] at hrp
  · refine ⟨rfl, ?_⟩
    intro r hr hrp
    simp at hr
    subst hr
    simp [Reply.isPrimary] at hrp

/-- Reply shape of handle_voice after the block check. -/
theorem voiceAfterBlockCheck_reply_shape (classify : String → Bool) (tc : Nat)
    (bu : Option Time) (username : String) (now : Time) (transcription : String) :
    ((voiceAfterBlockCheck classify tc bu username now transcription).replies.filter
      Reply.isPrimary).length = 1 ∧
    ∀ r ∈ (voiceAfterBlockCheck classify tc bu username now transcription).replies,
      Reply.isPrimary r = false →
        (r = Reply.warning username ∧ tc + 1 = 8) ∨
        (r = Reply.blockNotice (now + twoDays) ∧ 10 ≤ tc + 1) := by
  unfold voiceAfterBlockCheck
  dsimp only
  split_ifs with he hc h8 h10
  · refine ⟨rfl, ?_⟩
    intro r hr hrp
    simp at hr
    subst hr
    simp [Reply.isPrimary] at hrp
  · refine ⟨rfl, ?_⟩
    intro r hr hrp
    simp at hr
    rcases hr with rfl | rfl
    · simp [Reply.isPrimary] at hrp
    · exact Or.inl ⟨rfl, h8⟩
  · refine ⟨rfl, ?_⟩
    intro r hr hrp
    simp at hr
    rcases hr with rfl | rfl
    · simp [Reply.isPrimary] at hrp
    · exact Or.inr ⟨rfl, h10⟩
  · refine ⟨rfl, ?_⟩
    intro r hr hrp
    simp at hr
    subst hr
    simp [Reply.isPrimary] at hrp
  · refine ⟨rfl, ?_⟩
    intro r hr hrp
    simp at hr
    subst hr
    simp [Reply.isPrimary] at hrp

/-- Claim C6 (amended): every processed message yields exactly one primary
reply (allow / toxic-removed / blocked / could-not-understand); an
additional reply is appended only for the warning at the exact 8th offense
or for the block notice when the new count reaches at least 10. -/
theorem one_primary_reply_per_message (classify : String → Bool)
    (record : Option UserRecord) (username : String) (now : Time)
    (text transcription : String) :
    ((handle_text classify record username now text).replies.filter
      Reply.isPrimary).length = 1 ∧
    (∀ r ∈ (handle_text classify record username now text).replies,
      Reply.isPrimary r = false →
        (r = Reply.warning username ∧ recCount record + 1 = 8) ∨
        (r = Reply.blockNotice (now + twoDays) ∧ 10 ≤ recCount record + 1)) ∧
    ((handle_voice classify record username now transcription).replies.filter
      Reply.isPrimary).length = 1 ∧
    (∀ r ∈ (handle_voice classify record username now transcription).replies,
      Reply.isPrimary r = false →
        (r = Reply.warning username ∧ recCount record + 1 = 8) ∨
        (r = Reply.blockNotice (now + twoDays) ∧ 10 ≤ recCount record + 1)) := by
  cases hb : isBlocked record now with
  | false =>
      rw [handle_text_not_blocked _ _ _ _ _ hb, handle_voice_not_blocked _ _ _ _ _ hb]
      exact ⟨(textAfterBlockCheck_reply_shape classify _ _ username now text).1,
        (textAfterBlockCheck_reply_shape classify _ _ username now text).2,
        (voiceAfterBlockCheck_reply_shape classify _ _ username now transcription).1,
        (voiceAfterBlockCheck_reply_shape classify _ _ username now transcription).2⟩
  | true =>
      obtain ⟨t, _, _, h1⟩ := handle_text_blocked classify record username now text hb
      obtain ⟨t2, _, _, h2⟩ := handle_voice_blocked classify record username now transcription hb
      rw [h1, h2]
      refine ⟨rfl, ?_, rfl, ?_⟩ <;>
        · intro r hr hrp
          simp [rejectBlocked] at hr
          subst hr
          simp [Reply.isPrimary] at hrp

/-- Witness for C6: one primary reply at the 8th toxic message, and its
appended reply is the warning. -/
theorem one_primary_reply_per_message_witness :
    ((handle_text (fun _ => true) (some ⟨7, none⟩) "u" 0 "hi").replies.filter
      Reply.isPrimary).length = 1 ∧
    ((Reply.warning "u" = Reply.warning "u" ∧ recCount (some ⟨7, none⟩) + 1 = 8) ∨
     (Reply.warning "u" = Reply.blockNotice ((0 : Time) + twoDays) ∧
       10 ≤ recCount (some ⟨7, none⟩) + 1)) :=
  ⟨(one_primary_reply_per_message (fun _ => true) (some ⟨7, none⟩) "u" 0 "hi" "v").1,
   (one_primary_reply_per_message (fun _ => true) (some ⟨7, none⟩) "u" 0 "hi" "v").2.1
     (Reply.warning "u") (by decide) rfl⟩

/-- Claim C6 counterexample: the 10th toxic text message gets two replies
and neither of them is the warning, so a reply beyond the primary one is
appended in a case other than the exact 8th offense. -/
theorem tenth_toxic_message_two_replies :
    (handle_text (fun _ => true) (some ⟨9, none⟩) "u" 0 "x").replies =
      [Reply.toxicRemoved "x", Reply.blockNotice 172800] ∧
    (handle_text (fun _ => true) (some ⟨9, none⟩) "u" 0 "x").replies.filter
      Reply.isWarning = [] ∧
    Reply.isPrimary (Reply.blockNotice 172800) = false ∧
    recCount (some ⟨9, none⟩) + 1 ≠ 8 := by decide

-- ---------- C8 ----------

/-- After the block check, running with a stale blocked_until value differs
from running with none only in the blocked_until column of the written row:
the stale timestamp is kept where the unblocked user writes none. -/
theorem textAfterBlockCheck_stale_vs_none (classify : String → Bool) (tc : Nat) (t : Time)
    (username : String) (now : Time) (text : String) :
    (textAfterBlockCheck classify tc (some t) username now text).deleted =
      (textAfterBlockCheck classify tc none username now text).deleted ∧
    (textAfterBlockCheck classify tc (some t) username now text).replies =
      (textAfterBlockCheck classify tc none username now text).replies ∧
    (textAfterBlockCheck classify tc (some t) username now text).classified =
      (textAfterBlockCheck classify tc none username now text).classified ∧
    (textAfterBlockCheck classify tc (some t) username now text).upsert =
      (textAfterBlockCheck classify tc none username now text).upsert.map
        (fun v => { v with blocked_until := some (v.blocked_until.getD t) }) := by
  unfold textAfterBlockCheck
  dsimp only
  split_ifs <;> simp

/-- Voice version of the stale-versus-absent blocked_until comparison. -/
theorem voiceAfterBlockCheck_stale_vs_none (classify : String → Bool) (tc : Nat) (t : Time)
    (username : String) (now : Time) (transcription : String) :
    (voiceAfterBlockCheck classify tc (some t) username now transcription).deleted =
      (voiceAfterBlockCheck classify tc none username now transcription).deleted ∧
    (voiceAfterBlockCheck classify tc (some t) username now transcription).replies =
      (voiceAfterBlockCheck classify tc none username now transcription).replies ∧
    (voiceAfterBlockCheck classify tc (some t) username now transcription).classified =
      (voiceAfterBlockCheck classify tc none username now transcription).classified ∧
    (voiceAfterBlockCheck classify tc (some t) username now transcription).upsert =
      (voiceAfterBlockCheck classify tc none username now transcription).upsert.map
        (fun v => { v with blocked_until := some (v.blocked_until.getD t) }) := by
  unfold voiceAfterBlockCheck
  dsimp only
  split_ifs <;> simp

/-- Claim C8 (amended): a user whose blocked_until lies in the past is
processed with the same deletions, the same replies, and the same
classification behavior as a user with no blocked_until at all, and the
written rows agree on username and toxic_count; the stored blocked_until,
however, keeps the expired timestamp where the unblocked user stores none
(they coincide only when a new block overwrites both). -/
theorem expired_block_behaves_like_none (classify : String → Bool) (c : Nat) (t : Time)
    (username : String) (now : Time) (text transcription : String) (h : t ≤ now) :
    (handle_text classify (some ⟨c, some t⟩) username now text).deleted =
      (handle_text classify (some ⟨c, none⟩) username now text).deleted ∧
    (handle_text classify (some ⟨c, some t⟩) username now text).replies =
      (handle_text classify (some ⟨c, none⟩) username now text).replies ∧
    (handle_text classify (some ⟨c, some t⟩) username now text).classified =
      (handle_text classify (some ⟨c, none⟩) username now text).classified ∧
    (handle_text classify (some ⟨c, some t⟩) username now text).upsert =
      (handle_text classify (some ⟨c, none⟩) username now text).upsert.map
        (fun v => { v with blocked_until := some (v.blocked_until.getD t) }) ∧
    (handle_voice classify (some ⟨c, some t⟩) username now transcription).deleted =
      (handle_voice classify (some ⟨c, none⟩) username now transcription).deleted ∧
    (handle_voice classify (some ⟨c, some t⟩) username now transcription).replies =
      (handle_voice classify (some ⟨c, none⟩) username now transcription).replies ∧
    (handle_voice classify (some ⟨c, some t⟩) username now transcription).classified =
      (handle_voice classify (some ⟨c, none⟩) username now transcription).classified ∧
    (handle_voice classify (some ⟨c, some t⟩) username now transcription).upsert =
      (handle_voice classify (some ⟨c, none⟩) username now transcription).upsert.map
        (fun v => { v with blocked_until := some (v.blocked_until.getD t) }) := by
  have hnb : ¬(now < t) := not_lt.mpr h
  have e1 : handle_text classify (some ⟨c, some t⟩) username now text =
      textAfterBlockCheck classify c (some t) username now text := by
    unfold handle_text
    simp [recBlocked, recCount, hnb]
  have e2 : handle_text classify (some ⟨c, none⟩) username now text =
      textAfterBlockCheck classify c none username now text := rfl
  have e3 : handle_voice classify (some ⟨c, some t⟩) username now transcription =
      voiceAfterBlockCheck classify c (some t) username now transcription := by
    unfold handle_voice
    simp [recBlocked, recCount, hnb]
  have e4 : handle_voice classify (some ⟨c, none⟩) username now transcription =
      voiceAfterBlockCheck classify c none username now transcription := rfl
  rw [e1, e2, e3, e4]
  exact ⟨(textAfterBlockCheck_stale_vs_none classify c t username now text).1,
    (textAfterBlockCheck_stale_vs_none classify c t username now text).2.1,
    (textAfterBlockCheck_stale_vs_none classify c t username now text).2.2.1,
    (textAfterBlockCheck_stale_vs_none classify c t username now text).2.2.2,
    (voiceAfterBlockCheck_stale_vs_none classify c t username now transcription).1,
    (voiceAfterBlockCheck_stale_vs_none classify c t username now transcription).2.1,
    (voiceAfterBlockCheck_stale_vs_none classify c t username now transcription).2.2.1,
    (voiceAfterBlockCheck_stale_vs_none classify c t username now transcription).2.2.2⟩

/-- Witness for C8 at a concrete expired block. -/
theorem expired_block_behaves_like_none_witness :
    (handle_text (fun _ => false) (some ⟨0, some 5⟩) "u" 10 "x").replies =
      (handle_text (fun _ => false) (some ⟨0, none⟩) "u" 10 "x").replies ∧
    (handle_text (fun _ => false) (some ⟨0, some 5⟩) "u" 10 "x").upsert =
      (handle_text (fun _ => false) (some ⟨0, none⟩) "u" 10 "x").upsert.map
        (fun v => { v with blocked_until := some (v.blocked_until.getD 5) }) :=
  ⟨(expired_block_behaves_like_none (fun _ => false) 0 5 "u" 10 "x" "y" (by decide)).2.1,
   (expired_block_behaves_like_none (fun _ => false) 0 5 "u" 10 "x" "y"
     (by decide)).2.2.2.1⟩

/-- Claim C8 counterexample: with an expired block the handler behaves the
same but does not produce the same stored record: the expired timestamp is
written back where the unblocked user stores none. -/
theorem expired_block_stored_record_differs :
    (5 : Time) ≤ 10 ∧
    (handle_text (fun _ => false) (some ⟨0, some 5⟩) "u" 10 "x").replies =
      (handle_text (fun _ => false) (some ⟨0, none⟩) "u" 10 "x").replies ∧
    (handle_text (fun _ => false) (some ⟨0, some 5⟩) "u" 10 "x").upsert =
      some ⟨"u", 0, some 5⟩ ∧
    (handle_text (fun _ => false) (some ⟨0, none⟩) "u" 10 "x").upsert =
      some ⟨"u", 0, none⟩ ∧
    handle_text (fun _ => false) (some ⟨0, some 5⟩) "u" 10 "x" ≠
      handle_text (fun _ => false) (some ⟨0, none⟩) "u" 10 "x" := by decide
